import Mathlib

/-!
Shallow embedding of the client-side clickstream statistics aggregator
(`loadUserStatistics` in the dashboard component) of the EduTrack learning
dashboard, together with theorems settling the specification's claims about
it.

Modelling conventions:
* JS numbers that only ever hold non-negative integers are `Nat`; timestamps
  are `Int` milliseconds since the epoch (ISO strings are parsed to such a
  value by `new Date(...)`).
* `toDateString` equality is idealised as equality of the calendar-day index
  `timestamp / msPerDay` (the spec itself flags the absence of time-zone
  normalisation, so the day boundary choice is immaterial to the claims).
* The `details` payload is flattened to the two optional fields the
  aggregator reads or writes (`courseId`, `courseTitle`); an absent `details`
  object behaves exactly like one with both fields absent, because the code
  only ever accesses it through optional chaining.
* The wall clock (`new Date()`) is an explicit parameter `now`.
* JS truthiness of `details?.courseId` in `filter(Boolean)` drops both the
  absent value and the empty string, which `truthyCourseId` reproduces.
-/

/-- The free-form `details` payload of an event, flattened to the fields the
aggregator touches. -/
structure Details where
  courseId : Option String
  courseTitle : Option String
deriving DecidableEq, Repr

/-- One recorded clickstream event, as returned by
`GET /clickstream/user/{id}`. -/
structure Event where
  id : String
  sessionId : String
  userId : String
  action : String
  details : Details
  timestamp : Int
deriving DecidableEq, Repr

/-- One entry of `recentActivities`: the projection of an event kept by the
statistics loader (`{id, action, details, timestamp}`). -/
structure Activity where
  id : String
  action : String
  details : Details
  timestamp : Int
deriving DecidableEq, Repr

/-- The `statistics` state object of the dashboard component. -/
structure Statistics where
  coursesEnrolled : Nat
  coursesCompleted : Nat
  studyHours : Nat
  achievements : Nat
  recentActivities : List Activity
  weeklyHours : Nat
  streak : Nat
  rank : String
  overallProgress : Nat
deriving DecidableEq, Repr

/-- The initial `useState` value of the statistics object. -/
def initStatistics : Statistics :=
  { coursesEnrolled := 0
    coursesCompleted := 0
    studyHours := 0
    achievements := 0
    recentActivities := []
    weeklyHours := 0
    streak := 0
    rank := "Beginner"
    overallProgress := 0 }

/-- Milliseconds per calendar day. -/
def msPerDay : Int := 86400000

/-- Calendar-day index of a timestamp: the idealisation of
`new Date(t).toDateString()` (two timestamps have the same `toDateString`
iff they have the same day index). -/
def dateString (t : Int) : Int := t / msPerDay

/-- `userActions.filter(action => action.action === a)`. -/
def actionsOf (userActions : List Event) (a : String) : List Event :=
  userActions.filter (fun e => e.action == a)

/-- `action.details?.courseId` followed by the `filter(Boolean)` truthiness
test: the absent value and the empty string are dropped. -/
def truthyCourseId (e : Event) : Option String :=
  match e.details.courseId with
  | some s => if s = "" then none else some s
  | none => none

/-- `[...new Set(courseViews.map(a => a.details?.courseId).filter(Boolean))]`,
kept as the set of distinct truthy course ids (only its size is consumed). -/
def uniqueCourses (userActions : List Event) : Finset String :=
  ((actionsOf userActions "course_view").filterMap truthyCourseId).toFinset

/-- The achievements milestone count: one point per satisfied predicate
(≥1 course viewed, ≥1 quiz started, ≥1 video played, ≥1 quiz completed,
≥5 courses viewed). -/
def achievementsOf (userActions : List Event) : Nat :=
  (if (uniqueCourses userActions).card ≥ 1 then 1 else 0)
    + (if (actionsOf userActions "quiz_start").length ≥ 1 then 1 else 0)
    + (if (actionsOf userActions "video_play").length ≥ 1 then 1 else 0)
    + (if (actionsOf userActions "quiz_complete").length ≥ 1 then 1 else 0)
    + (if (uniqueCourses userActions).card ≥ 5 then 1 else 0)

/-- The event projection applied to each recent activity. -/
def toActivity (e : Event) : Activity :=
  { id := e.id, action := e.action, details := e.details, timestamp := e.timestamp }

/-- `userActions.slice(-10).reverse().map(projection)`. -/
def recentActivitiesOf (userActions : List Event) : List Activity :=
  ((userActions.drop (userActions.length - 10)).reverse).map toActivity

/-- `Math.floor(weeklyActions.length * 5 / 60)` where `weeklyActions` are the
events of the last seven days. -/
def weeklyHoursOf (now : Int) (userActions : List Event) : Nat :=
  ((userActions.filter (fun e => decide (now - 7 * msPerDay ≤ e.timestamp))).length * 5) / 60

/-- The streak `while` loop, rendered with explicit fuel: starting from day
`d`, count consecutive days whose `dateString` appears in `days`.  With fuel
`days.length` this computes exactly the value of the unbounded loop, because
the loop can run at most as many iterations as there are distinct days in
`days` (proved below as `streakOf_spec`). -/
def streakAux (days : List Int) : Int → Nat → Nat
  | _, 0 => 0
  | d, fuel + 1 => if d ∈ days then streakAux days (d - 1) fuel + 1 else 0

/-- The streak computation: walk back day by day from today while the
`dailyActivity` set contains the day. -/
def streakOf (now : Int) (userActions : List Event) : Nat :=
  streakAux (userActions.map (fun e => dateString e.timestamp)) (dateString now)
    userActions.length

/-- The rank cascade: successive reassignments evaluated in ascending
threshold order, the last satisfied one winning. -/
def rankOf (achievements : Nat) : String :=
  let r := "Beginner"
  let r := if achievements ≥ 3 then "Intermediate" else r
  let r := if achievements ≥ 5 then "Advanced" else r
  let r := if achievements ≥ 7 then "Expert" else r
  r

/-- `Math.min(100, Math.floor((quizCompletes.length / Math.max(uniqueCourses.length, 1)) * 100))`,
with the floating-point arithmetic idealised to exact integer arithmetic. -/
def overallProgressOf (userActions : List Event) : Nat :=
  min 100
    ((actionsOf userActions "quiz_complete").length * 100 /
      max (uniqueCourses userActions).card 1)

/-- The statistics object computed from a successfully fetched event list
(the body of the `userData.success && userData.data` branch of
`loadUserStatistics`).  `now` is the wall clock read by `new Date()`. -/
def computeStatistics (now : Int) (userActions : List Event) : Statistics :=
  { coursesEnrolled := (uniqueCourses userActions).card
    coursesCompleted := (actionsOf userActions "quiz_complete").length
    studyHours := (uniqueCourses userActions).card * 30 / 60
    achievements := achievementsOf userActions
    recentActivities := recentActivitiesOf userActions
    weeklyHours := weeklyHoursOf now userActions
    streak := streakOf now userActions
    rank := rankOf (achievementsOf userActions)
    overallProgress := overallProgressOf userActions }

/-- The body of `GET /clickstream/user/{id}`'s JSON response, as read by the
loader (`success` flag and optional `data` array). -/
structure ApiResponse where
  success : Bool
  data : Option (List Event)
deriving DecidableEq, Repr

/-- Outcome of the remote fetch as observed by `loadUserStatistics`: the
`fetch`/`json()` promise rejects, or the HTTP response is not ok (which the
code turns into a thrown error), or a JSON body arrives. -/
inductive FetchOutcome where
  | networkError
  | httpNotOk (status : Nat)
  | ok (resp : ApiResponse)
deriving DecidableEq, Repr

/-- `sampleActivities`: the synthetic entry installed when the response is
unsuccessful or has no data. -/
def sampleActivities (now : Int) : List Activity :=
  [{ id := "sample-1", action := "course_view",
     details := { courseId := none, courseTitle := some "Welcome to EduTrack Pro" },
     timestamp := now }]

/-- `welcomeActivity`: the synthetic entry installed by the `catch` handler. -/
def welcomeActivity (now : Int) : List Activity :=
  [{ id := "welcome-1", action := "course_view",
     details := { courseId := none, courseTitle := some "Welcome to EduTrack Pro" },
     timestamp := now }]

/-- `loadUserStatistics`: the whole statistics loader as a state transformer
on the dashboard's `statistics` state.  A network error or a non-ok HTTP
status lands in the `catch` handler; a response failing
`userData.success && userData.data` takes the sample-activities branch;
otherwise the statistics are recomputed from the fetched events.  All errors
are swallowed: the function is total. -/
def loadUserStatistics (f : FetchOutcome) (now : Int) (prev : Statistics) : Statistics :=
  match f with
  | .networkError => { prev with recentActivities := welcomeActivity now }
  | .httpNotOk _ => { prev with recentActivities := welcomeActivity now }
  | .ok resp =>
      match resp.success, resp.data with
      | true, some userActions => computeStatistics now userActions
      | true, none => { prev with recentActivities := sampleActivities now }
      | false, _ => { prev with recentActivities := sampleActivities now }

/-- A fetch outcome that fails or carries no usable data: the fetch throws,
or the HTTP response is not ok, or the body has `success` false or no `data`
field. -/
def fetchFailsOrEmpty : FetchOutcome → Prop
  | .networkError => True
  | .httpNotOk _ => True
  | .ok resp => resp.success = false ∨ resp.data = none

instance : DecidablePred fetchFailsOrEmpty := by
  intro f
  cases f with
  | networkError => exact isTrue trivial
  | httpNotOk _ => exact isTrue trivial
  | ok resp => exact inferInstanceAs (Decidable (_ ∨ _))

/-- There is at least one event whose local calendar day is `d`. -/
def hasActivityOn (userActions : List Event) (d : Int) : Prop :=
  d ∈ userActions.map (fun e => dateString e.timestamp)

instance (userActions : List Event) (d : Int) :
    Decidable (hasActivityOn userActions d) :=
  inferInstanceAs (Decidable (_ ∈ _))

/-- The number of distinct `details.courseId` values among `course_view`
events, written from the specification's words (no truthiness filter): the
spec-side counterpart of `uniqueCourses` for the refinement claim about
`coursesEnrolled`. -/
def specDistinctCourseIds (userActions : List Event) : Nat :=
  ((actionsOf userActions "course_view").filterMap (fun e => e.details.courseId)).toFinset.card

theorem streakAux_le (days : List Int) (d : Int) (fuel : Nat) :
    streakAux days d fuel ≤ fuel := by
  induction fuel generalizing d with
  | zero => simp [streakAux]
  | succ n ih =>
    simp only [streakAux]
    split
    · exact Nat.succ_le_succ (ih _)
    · exact Nat.zero_le _

theorem streakAux_mem (days : List Int) (d : Int) (fuel : Nat) :
    ∀ k < streakAux days d fuel, (d - k) ∈ days := by
  induction fuel generalizing d with
  | zero => intro k hk; simp [streakAux] at hk
  | succ n ih =>
    intro k hk
    simp only [streakAux] at hk
    split at hk
    · rename_i hd
      cases k with
      | zero => simpa using hd
      | succ j =>
        have hj : j < streakAux days (d - 1) n := by omega
        have hmem := ih (d - 1) j hj
        have hcast : d - ((j : Nat) + 1 : Nat) = d - 1 - (j : Int) := by push_cast; ring
        rw [hcast]
        exact hmem
    · omega

theorem streakAux_not_mem (days : List Int) (d : Int) (fuel : Nat)
    (h : streakAux days d fuel < fuel) : (d - streakAux days d fuel) ∉ days := by
  induction fuel generalizing d with
  | zero => omega
  | succ n ih =>
    by_cases hd : d ∈ days
    · simp only [streakAux, if_pos hd] at h ⊢
      have h' : streakAux days (d - 1) n < n := by omega
      have := ih (d - 1) h'
      have hcast : d - ((streakAux days (d - 1) n : Nat) + 1 : Nat)
          = d - 1 - (streakAux days (d - 1) n : Int) := by push_cast; ring
      rw [hcast]
      exact this
    · simp only [streakAux, if_neg hd]
      simpa using hd

theorem streakAux_full (days : List Int) (d : Int)
    (h : streakAux days d days.length = days.length) :
    (d - days.length) ∉ days := by
  intro hmem
  have hall : ∀ k ≤ days.length, (d - k) ∈ days := by
    intro k hk
    rcases Nat.lt_or_ge k days.length with hlt | hge
    · exact streakAux_mem days d days.length k (by omega)
    · have hkl : k = days.length := Nat.le_antisymm hk hge
      subst hkl
      exact hmem
  have hsub : (Finset.range (days.length + 1)).image (fun k : Nat => d - (k : Int))
      ⊆ days.toFinset := by
    intro x hx
    simp only [Finset.mem_image, Finset.mem_range] at hx
    obtain ⟨k, hk, rfl⟩ := hx
    rw [List.mem_toFinset]
    exact hall k (Nat.lt_succ_iff.mp hk)
  have hinj : Function.Injective (fun k : Nat => d - (k : Int)) := by
    intro a b hab
    simp only at hab
    omega
  have hcard := Finset.card_le_card hsub
  rw [Finset.card_image_of_injective _ hinj, Finset.card_range] at hcard
  have hle := days.toFinset_card_le
  omega

theorem streakOf_spec (now : Int) (userActions : List Event) :
    (∀ k < streakOf now userActions, hasActivityOn userActions (dateString now - k)) ∧
      ¬ hasActivityOn userActions (dateString now - streakOf now userActions) := by
  have hlen : (userActions.map (fun e => dateString e.timestamp)).length
      = userActions.length := by simp
  constructor
  · intro k hk
    exact streakAux_mem _ (dateString now) userActions.length k hk
  · have hle := streakAux_le (userActions.map (fun e => dateString e.timestamp))
      (dateString now) userActions.length
    rcases Nat.lt_or_ge (streakOf now userActions) userActions.length with hlt | hge
    · exact streakAux_not_mem _ (dateString now) userActions.length hlt
    · have heq : streakOf now userActions = userActions.length := Nat.le_antisymm hle hge
      have hfull := streakAux_full (userActions.map (fun e => dateString e.timestamp))
        (dateString now) (by rw [hlen]; exact heq)
      rw [hasActivityOn, heq]
      rw [hlen] at hfull
      exact hfull

theorem actionsOf_append (l : List Event) (l' : List Event) (a : String) :
    actionsOf (l ++ l') a = actionsOf l a ++ actionsOf l' a := by
  simp [actionsOf, List.filter_append]

theorem actionsOf_length_mono (l : List Event) (e : Event) (a : String) :
    (actionsOf l a).length ≤ (actionsOf (l ++ [e]) a).length := by
  rw [actionsOf_append]
  simp

theorem uniqueCourses_card_mono (l : List Event) (e : Event) :
    (uniqueCourses l).card ≤ (uniqueCourses (l ++ [e])).card := by
  apply Finset.card_le_card
  rw [uniqueCourses, uniqueCourses, actionsOf_append, List.filterMap_append,
    List.toFinset_append]
  exact Finset.subset_union_left

theorem milestone_indicator_mono {n m k : Nat} (h : n ≤ m) :
    (if n ≥ k then 1 else 0) ≤ (if m ≥ k then 1 else 0) := by
  split_ifs <;> omega

theorem achievementsOf_append_le (l : List Event) (e : Event) :
    achievementsOf l ≤ achievementsOf (l ++ [e]) := by
  unfold achievementsOf
  have h1 := uniqueCourses_card_mono l e
  have h2 := actionsOf_length_mono l e "quiz_start"
  have h3 := actionsOf_length_mono l e "video_play"
  have h4 := actionsOf_length_mono l e "quiz_complete"
  exact Nat.add_le_add
    (Nat.add_le_add
      (Nat.add_le_add
        (Nat.add_le_add (milestone_indicator_mono h1) (milestone_indicator_mono h2))
        (milestone_indicator_mono h3))
      (milestone_indicator_mono h4))
    (milestone_indicator_mono h1)

theorem achievementsOf_le_five (l : List Event) : achievementsOf l ≤ 5 := by
  unfold achievementsOf
  split_ifs <;> omega

theorem rankOf_cases (a : Nat) :
    rankOf a = if a < 3 then "Beginner" else if a < 5 then "Intermediate"
      else if a < 7 then "Advanced" else "Expert" := by
  simp only [rankOf]
  split_ifs <;> first | rfl | omega

theorem uniqueCourses_card_eq_spec (userActions : List Event)
    (h : ∀ e ∈ userActions, e.action = "course_view" →
        ∃ s, e.details.courseId = some s ∧ s ≠ "") :
    (uniqueCourses userActions).card = specDistinctCourseIds userActions := by
  unfold uniqueCourses specDistinctCourseIds
  congr 2
  apply List.filterMap_congr
  intro e he
  have hmem := List.mem_filter.mp he
  obtain ⟨s, hs, hne⟩ := h e hmem.1 (by simpa using hmem.2)
  simp [truthyCourseId, hs, hne]

/-- A `course_view` event on course `"A"`. -/
def evViewA : Event :=
  { id := "e1", sessionId := "s1", userId := "u1", action := "course_view",
    details := { courseId := some "A", courseTitle := none }, timestamp := 0 }

/-- A `course_view` event on course `"B"`. -/
def evViewB : Event :=
  { id := "e2", sessionId := "s1", userId := "u1", action := "course_view",
    details := { courseId := some "B", courseTitle := none }, timestamp := 0 }

/-- A second `course_view` event on course `"A"`. -/
def evViewA2 : Event :=
  { id := "e3", sessionId := "s1", userId := "u1", action := "course_view",
    details := { courseId := some "A", courseTitle := none }, timestamp := 0 }

/-- A `quiz_complete` event on course `"A"`. -/
def evQuizDoneA : Event :=
  { id := "e4", sessionId := "s1", userId := "u1", action := "quiz_complete",
    details := { courseId := some "A", courseTitle := none }, timestamp := 0 }

/-- A `course_view` event whose `details.courseId` is present but is the empty
string, hence falsy in JS. -/
def evViewEmptyId : Event :=
  { id := "e5", sessionId := "s1", userId := "u1", action := "course_view",
    details := { courseId := some "", courseTitle := none }, timestamp := 0 }

/-- An event whose timestamp falls on calendar day 5. -/
def evOnDayFive : Event :=
  { id := "e6", sessionId := "s1", userId := "u1", action := "course_view",
    details := { courseId := some "A", courseTitle := none },
    timestamp := 5 * 86400000 }

/-- C1, counterexample: a single `course_view` event whose `details.courseId`
is the empty string carries a courseId (the field is present), and the number
of distinct courseId values among `course_view` events is 1, yet
`coursesEnrolled` is 0, because `filter(Boolean)` also drops the falsy empty
string.  So the claim as stated fails at this input. -/
theorem coursesEnrolled_claim_counterexample :
    ¬ ((∀ e ∈ [evViewEmptyId], e.action = "course_view" →
          (e.details.courseId).isSome = true) →
        1 ≤ (actionsOf [evViewEmptyId] "course_view").length →
        (computeStatistics 0 [evViewEmptyId]).coursesEnrolled
          = specDistinctCourseIds [evViewEmptyId]) := by
  decide

/-- C1 (amended): if every `course_view` event carries a truthy (non-empty)
`details.courseId`, and there is at least one `course_view` event, then
`coursesEnrolled` equals the number of distinct courseId values among
`course_view` events. -/
theorem coursesEnrolled_counts_distinct_courses (now : Int) (userActions : List Event)
    (h : ∀ e ∈ userActions, e.action = "course_view" →
        ∃ s, e.details.courseId = some s ∧ s ≠ "")
    (_hN : 1 ≤ (actionsOf userActions "course_view").length) :
    (computeStatistics now userActions).coursesEnrolled
      = specDistinctCourseIds userActions :=
  uniqueCourses_card_eq_spec userActions h

/-- C1, witness: the amended theorem applied to two `course_view` events with
distinct non-empty course ids. -/
theorem coursesEnrolled_counts_distinct_courses_witness :
    (computeStatistics 0 [evViewA, evViewB]).coursesEnrolled
      = specDistinctCourseIds [evViewA, evViewB] :=
  coursesEnrolled_counts_distinct_courses 0 [evViewA, evViewB]
    (by decide) (by decide)

/-- C2: `overallProgress` equals
`min(100, floor(100 * quizCompletedCount / max(1, distinctCoursesViewed)))`
and always lies in `[0, 100]` (the lower bound holds because the value is a
natural number). -/
theorem overallProgress_formula_and_bounds (now : Int) (userActions : List Event) :
    (computeStatistics now userActions).overallProgress
        = min 100 (100 * (actionsOf userActions "quiz_complete").length /
            max 1 (uniqueCourses userActions).card) ∧
      (computeStatistics now userActions).overallProgress ≤ 100 := by
  constructor
  · show overallProgressOf userActions = _
    unfold overallProgressOf
    rw [Nat.mul_comm, Nat.max_comm]
  · exact min_le_left _ _

/-- C4: the computed rank follows the ascending threshold cascade, the
highest satisfied threshold winning: `"Beginner"` below 3 achievements,
`"Intermediate"` on [3,5), `"Advanced"` on [5,7), `"Expert"` from 7 up. -/
theorem rank_matches_thresholds (now : Int) (userActions : List Event) :
    (computeStatistics now userActions).rank =
      if (computeStatistics now userActions).achievements < 3 then "Beginner"
      else if (computeStatistics now userActions).achievements < 5 then "Intermediate"
      else if (computeStatistics now userActions).achievements < 7 then "Advanced"
      else "Expert" :=
  rankOf_cases (achievementsOf userActions)

/-- C5: appending one qualifying event never decreases the achievements
count. -/
theorem achievements_monotone (now : Int) (l : List Event) (e : Event)
    (_hq : e.action ∈ ["course_view", "quiz_start", "video_play", "quiz_complete"]) :
    (computeStatistics now l).achievements ≤ (computeStatistics now (l ++ [e])).achievements :=
  achievementsOf_append_le l e

/-- C5, witness: appending a `quiz_complete` event to a one-event log. -/
theorem achievements_monotone_witness :
    evQuizDoneA.action ∈ ["course_view", "quiz_start", "video_play", "quiz_complete"] ∧
      (computeStatistics 0 [evViewA]).achievements
        ≤ (computeStatistics 0 ([evViewA] ++ [evQuizDoneA])).achievements :=
  ⟨by decide, achievements_monotone 0 [evViewA] evQuizDoneA (by decide)⟩

/-- C7: on the concrete log of three `course_view` events with course ids
A, B, A and one `quiz_complete`, the statistics give `coursesEnrolled = 2`,
`coursesCompleted = 1` and `overallProgress = 50`. -/
theorem example_log_statistics :
    (computeStatistics 0 [evViewA, evViewB, evViewA2, evQuizDoneA]).coursesEnrolled = 2 ∧
      (computeStatistics 0 [evViewA, evViewB, evViewA2, evQuizDoneA]).coursesCompleted = 1 ∧
      (computeStatistics 0 [evViewA, evViewB, evViewA2, evQuizDoneA]).overallProgress = 50 := by
  decide

/-- C9: the achievements count never exceeds 5, so the `"Expert"` threshold
(7) is unreachable and the rank is always `"Beginner"`, `"Intermediate"` or
`"Advanced"`. -/
theorem achievements_capped_rank_never_expert (now : Int) (userActions : List Event) :
    (computeStatistics now userActions).achievements ≤ 5 ∧
      (computeStatistics now userActions).rank ≠ "Expert" ∧
      ((computeStatistics now userActions).rank = "Beginner" ∨
        (computeStatistics now userActions).rank = "Intermediate" ∨
        (computeStatistics now userActions).rank = "Advanced") := by
  have h5 : achievementsOf userActions ≤ 5 := achievementsOf_le_five userActions
  refine ⟨h5, ?_, ?_⟩
  · show rankOf (achievementsOf userActions) ≠ "Expert"
    simp only [rankOf]
    split_ifs <;> first | omega | decide
  · show rankOf (achievementsOf userActions) = "Beginner" ∨
      rankOf (achievementsOf userActions) = "Intermediate" ∨
      rankOf (achievementsOf userActions) = "Advanced"
    simp only [rankOf]
    split_ifs <;> first | omega | simp

/-- C3: whenever the fetch throws, the HTTP response is not ok, or the body
has `success` false or no `data`, the resulting `recentActivities` is exactly
one synthetic `course_view` entry titled "Welcome to EduTrack Pro".  No error
escapes to the caller: `loadUserStatistics` is a total function into
`Statistics` because the `catch` handler swallows every failure. -/
theorem failing_fetch_yields_welcome (f : FetchOutcome) (now : Int) (prev : Statistics)
    (h : fetchFailsOrEmpty f) :
    (loadUserStatistics f now prev).recentActivities.length = 1 ∧
      ∀ a ∈ (loadUserStatistics f now prev).recentActivities,
        a.action = "course_view" ∧ a.details.courseTitle = some "Welcome to EduTrack Pro" := by
  cases f with
  | networkError => simp [loadUserStatistics, welcomeActivity]
  | httpNotOk s => simp [loadUserStatistics, welcomeActivity]
  | ok resp =>
    obtain ⟨succ, data⟩ := resp
    simp only [fetchFailsOrEmpty] at h
    cases succ with
    | false => simp [loadUserStatistics, sampleActivities]
    | true =>
      rcases h with hs | hd
      · exact absurd hs (by decide)
      · subst hd
        simp [loadUserStatistics, sampleActivities]

/-- C3, witness: a network error on the initial statistics state. -/
theorem failing_fetch_yields_welcome_witness :
    (loadUserStatistics FetchOutcome.networkError 0 initStatistics).recentActivities.length = 1 ∧
      ∀ a ∈ (loadUserStatistics FetchOutcome.networkError 0 initStatistics).recentActivities,
        a.action = "course_view" ∧ a.details.courseTitle = some "Welcome to EduTrack Pro" :=
  failing_fetch_yields_welcome FetchOutcome.networkError 0 initStatistics trivial

/-- C10: on a failing or empty fetch, every statistics field other than
`recentActivities` keeps its previous value. -/
theorem failing_fetch_frame (f : FetchOutcome) (now : Int) (prev : Statistics)
    (h : fetchFailsOrEmpty f) :
    (loadUserStatistics f now prev).coursesEnrolled = prev.coursesEnrolled ∧
      (loadUserStatistics f now prev).coursesCompleted = prev.coursesCompleted ∧
      (loadUserStatistics f now prev).studyHours = prev.studyHours ∧
      (loadUserStatistics f now prev).achievements = prev.achievements ∧
      (loadUserStatistics f now prev).weeklyHours = prev.weeklyHours ∧
      (loadUserStatistics f now prev).streak = prev.streak ∧
      (loadUserStatistics f now prev).rank = prev.rank ∧
      (loadUserStatistics f now prev).overallProgress = prev.overallProgress := by
  cases f with
  | networkError => simp [loadUserStatistics]
  | httpNotOk s => simp [loadUserStatistics]
  | ok resp =>
    obtain ⟨succ, data⟩ := resp
    simp only [fetchFailsOrEmpty] at h
    cases succ with
    | false => simp [loadUserStatistics]
    | true =>
      rcases h with hs | hd
      · exact absurd hs (by decide)
      · subst hd
        simp [loadUserStatistics]

/-- C10, witness: a response with `success` false on the initial state. -/
theorem failing_fetch_frame_witness :
    (loadUserStatistics (FetchOutcome.ok { success := false, data := none }) 0
        initStatistics).coursesEnrolled = initStatistics.coursesEnrolled ∧
      (loadUserStatistics (FetchOutcome.ok { success := false, data := none }) 0
        initStatistics).coursesCompleted = initStatistics.coursesCompleted ∧
      (loadUserStatistics (FetchOutcome.ok { success := false, data := none }) 0
        initStatistics).studyHours = initStatistics.studyHours ∧
      (loadUserStatistics (FetchOutcome.ok { success := false, data := none }) 0
        initStatistics).achievements = initStatistics.achievements ∧
      (loadUserStatistics (FetchOutcome.ok { success := false, data := none }) 0
        initStatistics).weeklyHours = initStatistics.weeklyHours ∧
      (loadUserStatistics (FetchOutcome.ok { success := false, data := none }) 0
        initStatistics).streak = initStatistics.streak ∧
      (loadUserStatistics (FetchOutcome.ok { success := false, data := none }) 0
        initStatistics).rank = initStatistics.rank ∧
      (loadUserStatistics (FetchOutcome.ok { success := false, data := none }) 0
        initStatistics).overallProgress = initStatistics.overallProgress :=
  failing_fetch_frame (FetchOutcome.ok { success := false, data := none }) 0
    initStatistics (Or.inl rfl)

/-- C6: the streak is the number of consecutive calendar days, walking
backward from today, each containing at least one event: every day strictly
within the streak has activity, the day just past it has none, and in
particular the streak is 0 when no event falls on today's date. -/
theorem streak_counts_consecutive_days (now : Int) (userActions : List Event) :
    (¬ hasActivityOn userActions (dateString now) →
        (computeStatistics now userActions).streak = 0) ∧
      (∀ k < (computeStatistics now userActions).streak,
        hasActivityOn userActions (dateString now - k)) ∧
      ¬ hasActivityOn userActions
        (dateString now - (computeStatistics now userActions).streak) := by
  obtain ⟨h1, h2⟩ := streakOf_spec now userActions
  refine ⟨?_, h1, h2⟩
  intro htoday
  by_contra hne
  have hpos : 0 < streakOf now userActions := Nat.pos_of_ne_zero hne
  have h0 := h1 0 hpos
  simp only [Nat.cast_zero, sub_zero] at h0
  exact htoday h0

/-- C6, witness: with the only event on calendar day 5 and today being day 0,
the streak is 0. -/
theorem streak_counts_consecutive_days_witness :
    (computeStatistics 0 [evOnDayFive]).streak = 0 :=
  (streak_counts_consecutive_days 0 [evOnDayFive]).1 (by decide)

/-- C8, counterexample: the same one-event log aggregated at two different
wall-clock instants (the event's own day, and one day later) yields different
statistics — the streak drops from 1 to 0 — so the statistics are not a
function of the event list alone. -/
theorem statistics_depend_on_clock :
    computeStatistics 0 [evViewA] ≠ computeStatistics msPerDay [evViewA] := by
  decide

/-- C8 (amended): the aggregation is a pure function of the event list and
the wall clock, and only `streak` and `weeklyHours` read the clock: every
other field depends on the event list alone.  No event is mutated or deleted
— the computation only reads its input list. -/
theorem statistics_fields_clock_free (t1 t2 : Int) (userActions : List Event) :
    (computeStatistics t1 userActions).coursesEnrolled
        = (computeStatistics t2 userActions).coursesEnrolled ∧
      (computeStatistics t1 userActions).coursesCompleted
        = (computeStatistics t2 userActions).coursesCompleted ∧
      (computeStatistics t1 userActions).studyHours
        = (computeStatistics t2 userActions).studyHours ∧
      (computeStatistics t1 userActions).achievements
        = (computeStatistics t2 userActions).achievements ∧
      (computeStatistics t1 userActions).recentActivities
        = (computeStatistics t2 userActions).recentActivities ∧
      (computeStatistics t1 userActions).rank
        = (computeStatistics t2 userActions).rank ∧
      (computeStatistics t1 userActions).overallProgress
        = (computeStatistics t2 userActions).overallProgress :=
  ⟨rfl, rfl, rfl, rfl, rfl, rfl, rfl⟩
